import Mathlib

/-!
# Notification dispatch handler (`api/send-fcm.js`)

A shallow embedding of the serverless handler in `src/api/send-fcm.js` and of the
module-level client initialisation that precedes it.

The handler is a JavaScript `async` function with three kinds of effects: calls on the
response object (`setHeader`, `status`, `json`), one call on the messaging provider
(`admin.messaging().send(message)`) and, at module load, a guarded `admin.initializeApp`.
The embedding makes all of them explicit:

* JavaScript values are the inductive type `JSValue` (JSON values plus `undefined`);
* the provider is a parameter `send`, a transition on an arbitrary provider state that
  answers each message with an outcome (resolve, reject, or never settle);
* every run of the handler returns the ordered list of the effects it performed (`trace`),
  the way the `async` function completed (`completion`), the response object and the
  `admin` object after the run.
-/

namespace SendFcm

/-! ## JavaScript values -/

/-- A JavaScript number as far as truthiness can tell numbers apart: `NaN`, the two
infinities, or a finite value (the two signed zeros are both `finite 0`). -/
inductive JSNumber where
  | nan
  | posInf
  | negInf
  | finite (q : ℚ)

/-- The values a request body, a provider answer or a thrown error can be: JSON values
together with `undefined`. An object is its table of properties. -/
inductive JSValue where
  | undefined
  | null
  | bool (b : Bool)
  | number (n : JSNumber)
  | string (s : String)
  | array (items : List JSValue)
  | object (props : List (String × JSValue))

/-- ToBoolean on numbers: `+0`, `-0` and `NaN` are falsy, every other number is truthy. -/
def JSNumber.truthy : JSNumber → Bool
  | .nan => false
  | .posInf => true
  | .negInf => true
  | .finite q => decide (q ≠ 0)

/-- ToBoolean: `undefined`, `null`, `false`, `0`, `NaN` and the empty string are falsy;
every other value, every object and array included, is truthy. -/
def JSValue.truthy : JSValue → Bool
  | .undefined => false
  | .null => false
  | .bool b => b
  | .number n => n.truthy
  | .string s => decide (s ≠ "")
  | .array _ => true
  | .object _ => true

/-- The operator `a || b`: `a` when `a` is truthy, otherwise `b`. -/
def JSValue.or (a b : JSValue) : JSValue :=
  if a.truthy then a else b

/-- The error raised when a property is read from `undefined` or `null`. Its message text
depends on the engine and is left out. -/
def typeError : JSValue :=
  .object [("name", .string "TypeError")]

/-- Reading the property `name` of a value, `v.name` or `const { name } = v`: a TypeError on
`undefined` and `null`, the entry of the property table on an object, `undefined` when the
object has no such property. On booleans, numbers, strings and arrays the names read by
the handler (`token`, `title`, `body`, `data`, `message`) are not defined, so the read
gives `undefined`. -/
def JSValue.getProp (v : JSValue) (name : String) : Except JSValue JSValue :=
  match v with
  | .undefined => .error typeError
  | .null => .error typeError
  | .object props =>
    match props.lookup name with
    | some x => .ok x
    | none => .ok .undefined
  | _ => .ok .undefined

/-! ## The response object, the provider and the `admin` module -/

/-- One effect performed by the module or the handler, in program order. -/
inductive Event where
  | initializeApp (projectId privateKey clientEmail : String)
  | setHeader (name value : String)
  | status (code : Nat)
  | json (body : JSValue)
  | send (message : JSValue)

/-- The response object as the handler can change it: the header table (keyed by the
lower-cased header name, as header names are case-insensitive), the status code once
`status` has been called and the body once `json` has been called. -/
structure Response where
  headers : List (String × String)
  statusCode : Option Nat
  body : Option JSValue

/-- A response on which nothing has been set yet. -/
def Response.fresh : Response :=
  { headers := [], statusCode := none, body := none }

/-- The call `res.setHeader(name, value)`: sets the header, replacing an earlier value. -/
def Response.setHeader (res : Response) (name value : String) : Response :=
  { res with
    headers := (name.toLower, value) :: res.headers.filter (fun h => h.1 != name.toLower) }

/-- The value of a response header, if it is set. -/
def Response.getHeader (res : Response) (name : String) : Option String :=
  res.headers.lookup name.toLower

/-- The call `res.status(code)`: records the status code and returns the response. -/
def Response.status (res : Response) (code : Nat) : Response :=
  { res with statusCode := some code }

/-- The call `res.json(body)`: records the JSON body. -/
def Response.json (res : Response) (body : JSValue) : Response :=
  { res with body := some body }

/-- How the promise returned by `admin.messaging().send(message)` behaves: it resolves with
a value, it rejects with (or the call throws) an error value, or it never settles. -/
inductive SendOutcome where
  | resolves (response : JSValue)
  | rejects (error : JSValue)
  | pending

/-- A registered Firebase app, identified by the service-account fields it was built from. -/
structure FirebaseApp where
  projectId : String
  privateKey : String
  clientEmail : String

/-- The `firebase-admin` module object: the list `admin.apps` of registered apps and the
state of the messaging provider, of an arbitrary type `σ`. -/
structure Admin (σ : Type) where
  apps : List FirebaseApp
  messaging : σ

/-- The call `admin.initializeApp({credential: admin.credential.cert({...})})` as far as the
list of apps sees it: one more app is registered. -/
def Admin.initializeApp {σ : Type} (admin : Admin σ) (app : FirebaseApp) : Admin σ :=
  { admin with apps := admin.apps ++ [app] }

/-- The service account written in the source. -/
def serviceAccount : FirebaseApp :=
  { projectId := "kwaaijongens-app-88f1d"
    privateKey := "YOUR_PRIVATE_KEY_HERE"
    clientEmail := "firebase-adminsdk-fbsvc@kwaaijongens-app-88f1d.iam.gserviceaccount.com" }

/-- The module-level statement `if (!admin.apps.length) { admin.initializeApp(...) }`,
returning the `admin` object after it and the effects it performed. -/
def moduleInit {σ : Type} (admin : Admin σ) : Admin σ × List Event :=
  if admin.apps.length = 0 then
    (admin.initializeApp serviceAccount,
      [.initializeApp serviceAccount.projectId serviceAccount.privateKey
        serviceAccount.clientEmail])
  else
    (admin, [])

/-! ## The handler -/

/-- The inbound request: only its `body` is read. -/
structure Request where
  body : JSValue

/-- How a run of the `async` handler ends: its promise resolves (`returned`), it rejects
with a fault that was thrown and not caught (`threw`), or it stays suspended at the
`await` because the provider never settles (`suspended`). -/
inductive Completion where
  | returned
  | threw (fault : JSValue)
  | suspended

/-- What one run of the handler leaves behind. -/
structure Run (σ : Type) where
  trace : List Event
  completion : Completion
  res : Response
  admin : Admin σ

/-- The object literal built inside the `try` block:
`{ token: token, notification: { title: title || 'Kwaaijongens', body: body || 'Nieuw bericht!' }, data: data || {} }`. -/
def buildMessage (token title body data : JSValue) : JSValue :=
  .object
    [("token", token),
     ("notification",
        .object
          [("title", title.or (.string "Kwaaijongens")),
           ("body", body.or (.string "Nieuw bericht!"))]),
     ("data", data.or (.object []))]

/-- The destructuring `const { token, title, body, data } = req.body`. -/
def destructureBody (reqBody : JSValue) :
    Except JSValue (JSValue × JSValue × JSValue × JSValue) := do
  let token ← reqBody.getProp "token"
  let title ← reqBody.getProp "title"
  let body ← reqBody.getProp "body"
  let data ← reqBody.getProp "data"
  pure (token, title, body, data)

/-- The exported handler `module.exports = async (req, res) => { ... }`, run against a
provider `send` and the current `admin` object.

The header is set first. The destructuring of `req.body` stands before the `try`, so a
fault there leaves the handler. Inside the `try` the message is built and sent; when the
provider resolves, `res.status(200)` and then `.json({success: true, messageId: response})`
are called; when it rejects, the `catch` block calls `res.status(500)`, then evaluates
`error.message` and calls `.json({error: ...})`. -/
def handler {σ : Type} (send : σ → JSValue → SendOutcome × σ) (admin : Admin σ)
    (req : Request) (res : Response) : Run σ :=
  let res₁ := res.setHeader "Access-Control-Allow-Origin" "*"
  let t₁ : List Event := [.setHeader "Access-Control-Allow-Origin" "*"]
  match destructureBody req.body with
  | .error fault =>
    { trace := t₁, completion := .threw fault, res := res₁, admin := admin }
  | .ok (token, title, body, data) =>
    let message := buildMessage token title body data
    let t₂ := t₁ ++ [.send message]
    match send admin.messaging message with
    | (.resolves response, s) =>
      let payload := JSValue.object [("success", .bool true), ("messageId", response)]
      { trace := t₂ ++ [.status 200, .json payload]
        completion := .returned
        res := (res₁.status 200).json payload
        admin := { admin with messaging := s } }
    | (.rejects error, s) =>
      match error.getProp "message" with
      | .ok text =>
        let payload := JSValue.object [("error", text)]
        { trace := t₂ ++ [.status 500, .json payload]
          completion := .returned
          res := (res₁.status 500).json payload
          admin := { admin with messaging := s } }
      | .error fault =>
        { trace := t₂ ++ [.status 500]
          completion := .threw fault
          res := res₁.status 500
          admin := { admin with messaging := s } }
    | (.pending, s) =>
      { trace := t₂
        completion := .suspended
        res := res₁
        admin := { admin with messaging := s } }

/-! ## Observations on a run -/

/-- The messages passed to the provider in a trace, in order. -/
def sentMessages : List Event → List JSValue
  | [] => []
  | .send m :: rest => m :: sentMessages rest
  | _ :: rest => sentMessages rest

/-- The status codes written in a trace, in order. -/
def statusesWritten : List Event → List Nat
  | [] => []
  | .status c :: rest => c :: statusesWritten rest
  | _ :: rest => statusesWritten rest

/-- The JSON bodies written in a trace, in order. -/
def bodiesWritten : List Event → List JSValue
  | [] => []
  | .json b :: rest => b :: bodiesWritten rest
  | _ :: rest => bodiesWritten rest

/-- The headers set in a trace, in order. -/
def headersSet : List Event → List (String × String)
  | [] => []
  | .setHeader n v :: rest => (n, v) :: headersSet rest
  | _ :: rest => headersSet rest

/-- The apps registered in a trace, by project identifier, in order. -/
def appsInitialized : List Event → List String
  | [] => []
  | .initializeApp p _ _ :: rest => p :: appsInitialized rest
  | _ :: rest => appsInitialized rest

/-- The nested read `message.notification.<field>` on an outbound message. -/
def notificationField (message : JSValue) (field : String) : Except JSValue JSValue := do
  let n ← message.getProp "notification"
  n.getProp field

/-- A provider that resolves every send with the identifier `msg-1`. -/
def echoProvider : Unit → JSValue → SendOutcome × Unit :=
  fun s _ => (.resolves (.string "msg-1"), s)

/-- A provider that rejects every send with an error carrying the given message text. -/
def rejectingProvider (text : String) : Unit → JSValue → SendOutcome × Unit :=
  fun s _ => (.rejects (.object [("message", .string text)]), s)

/-- A provider that answers its first send with `msg-1` and every later send with `msg-2`;
its state records whether a send has been answered. -/
def sequencedProvider : Bool → JSValue → SendOutcome × Bool :=
  fun used _ => (.resolves (.string (if used then "msg-2" else "msg-1")), true)

/-- The `admin` object after module load from an empty app list. -/
def loadedAdmin {σ : Type} (s : σ) : Admin σ :=
  (moduleInit { apps := [], messaging := s }).1

/-- One step in the life of the process: the module is loaded (again), or the handler is
invoked on a request with a response object. -/
inductive ProcessStep where
  | load
  | invoke (req : Request) (res : Response)

/-- The `admin` object after one step of the process. -/
def runStep {σ : Type} (send : σ → JSValue → SendOutcome × σ) (admin : Admin σ) :
    ProcessStep → Admin σ
  | .load => (moduleInit admin).1
  | .invoke req res => (handler send admin req res).admin

/-- The `admin` object after a sequence of steps of the process. -/
def runProcess {σ : Type} (send : σ → JSValue → SendOutcome × σ) (admin : Admin σ)
    (steps : List ProcessStep) : Admin σ :=
  steps.foldl (runStep send) admin

/-! ## Auxiliary lemmas -/

/-- A property read succeeds on every value other than `undefined` and `null`. -/
theorem getProp_of_present (v : JSValue) (name : String)
    (hu : v ≠ .undefined) (hn : v ≠ .null) : ∃ x, v.getProp name = .ok x := by
  cases v with
  | undefined => exact absurd rfl hu
  | null => exact absurd rfl hn
  | object props =>
    simp only [JSValue.getProp]
    cases props.lookup name with
    | none => exact ⟨_, rfl⟩
    | some x => exact ⟨_, rfl⟩
  | bool b => exact ⟨_, rfl⟩
  | number n => exact ⟨_, rfl⟩
  | string s => exact ⟨_, rfl⟩
  | array items => exact ⟨_, rfl⟩

/-- A property read that succeeds was made on a value other than `undefined` and `null`. -/
theorem present_of_getProp (v : JSValue) (name : String) (x : JSValue)
    (h : v.getProp name = .ok x) : v ≠ .undefined ∧ v ≠ .null := by
  constructor
  · intro hv
    subst hv
    simp [JSValue.getProp] at h
  · intro hv
    subst hv
    simp [JSValue.getProp] at h

/-- On a present body the destructuring yields the four property reads. -/
theorem destructureBody_of_present (b : JSValue) (hu : b ≠ .undefined) (hn : b ≠ .null) :
    ∃ token title body data,
      b.getProp "token" = .ok token ∧ b.getProp "title" = .ok title ∧
      b.getProp "body" = .ok body ∧ b.getProp "data" = .ok data ∧
      destructureBody b = .ok (token, title, body, data) := by
  obtain ⟨token, h₁⟩ := getProp_of_present b "token" hu hn
  obtain ⟨title, h₂⟩ := getProp_of_present b "title" hu hn
  obtain ⟨body, h₃⟩ := getProp_of_present b "body" hu hn
  obtain ⟨data, h₄⟩ := getProp_of_present b "data" hu hn
  refine ⟨token, title, body, data, h₁, h₂, h₃, h₄, ?_⟩
  simp only [destructureBody, h₁, h₂, h₃, h₄]
  rfl

/-- On an absent body the destructuring raises the TypeError. -/
theorem destructureBody_of_absent (b : JSValue) (h : b = .undefined ∨ b = .null) :
    destructureBody b = .error typeError := by
  rcases h with h | h <;> subst h <;> rfl

/-- Whenever the destructuring succeeds, the handler passes exactly one message to the
provider, the one built from the four destructured values. -/
theorem sentMessages_of_destructured {σ : Type} (send : σ → JSValue → SendOutcome × σ)
    (admin : Admin σ) (res : Response) (b token title body data : JSValue)
    (h : destructureBody b = .ok (token, title, body, data)) :
    sentMessages (handler send admin ⟨b⟩ res).trace = [buildMessage token title body data] := by
  simp only [handler, h]
  rcases hs : send admin.messaging (buildMessage token title body data) with ⟨o, s⟩
  cases o with
  | resolves r => simp [sentMessages]
  | rejects e =>
    cases he : e.getProp "message" with
    | ok text => simp [he, sentMessages]
    | error f => simp [he, sentMessages]
  | pending => simp [sentMessages]

/-- The run on a present body when the provider resolves the send. -/
theorem handler_of_resolves {σ : Type} (send : σ → JSValue → SendOutcome × σ)
    (admin : Admin σ) (res : Response) (b token title body data response : JSValue) (s : σ)
    (h : destructureBody b = .ok (token, title, body, data))
    (hs : send admin.messaging (buildMessage token title body data) = (.resolves response, s)) :
    handler send admin ⟨b⟩ res =
      { trace :=
          [.setHeader "Access-Control-Allow-Origin" "*",
           .send (buildMessage token title body data),
           .status 200,
           .json (.object [("success", .bool true), ("messageId", response)])]
        completion := .returned
        res := ((res.setHeader "Access-Control-Allow-Origin" "*").status 200).json
          (.object [("success", .bool true), ("messageId", response)])
        admin := { admin with messaging := s } } := by
  simp [handler, h, hs]

/-- The run on a present body when the provider rejects the send with an error whose
`message` can be read. -/
theorem handler_of_rejects {σ : Type} (send : σ → JSValue → SendOutcome × σ)
    (admin : Admin σ) (res : Response) (b token title body data error text : JSValue) (s : σ)
    (h : destructureBody b = .ok (token, title, body, data))
    (hs : send admin.messaging (buildMessage token title body data) = (.rejects error, s))
    (he : error.getProp "message" = .ok text) :
    handler send admin ⟨b⟩ res =
      { trace :=
          [.setHeader "Access-Control-Allow-Origin" "*",
           .send (buildMessage token title body data),
           .status 500,
           .json (.object [("error", text)])]
        completion := .returned
        res := ((res.setHeader "Access-Control-Allow-Origin" "*").status 500).json
          (.object [("error", text)])
        admin := { admin with messaging := s } } := by
  simp [handler, h, hs, he]

/-- The run on a present body when the provider rejects the send with `undefined` or
`null`: reading `error.message` in the `catch` block raises in turn. -/
theorem handler_of_rejects_unreadable {σ : Type} (send : σ → JSValue → SendOutcome × σ)
    (admin : Admin σ) (res : Response) (b token title body data error fault : JSValue) (s : σ)
    (h : destructureBody b = .ok (token, title, body, data))
    (hs : send admin.messaging (buildMessage token title body data) = (.rejects error, s))
    (he : error.getProp "message" = .error fault) :
    handler send admin ⟨b⟩ res =
      { trace :=
          [.setHeader "Access-Control-Allow-Origin" "*",
           .send (buildMessage token title body data),
           .status 500]
        completion := .threw fault
        res := (res.setHeader "Access-Control-Allow-Origin" "*").status 500
        admin := { admin with messaging := s } } := by
  simp [handler, h, hs, he]

/-- The run on a present body when the provider never settles. -/
theorem handler_of_pending {σ : Type} (send : σ → JSValue → SendOutcome × σ)
    (admin : Admin σ) (res : Response) (b token title body data : JSValue) (s : σ)
    (h : destructureBody b = .ok (token, title, body, data))
    (hs : send admin.messaging (buildMessage token title body data) = (.pending, s)) :
    handler send admin ⟨b⟩ res =
      { trace :=
          [.setHeader "Access-Control-Allow-Origin" "*",
           .send (buildMessage token title body data)]
        completion := .suspended
        res := res.setHeader "Access-Control-Allow-Origin" "*"
        admin := { admin with messaging := s } } := by
  simp [handler, h, hs]

/-- The run on an absent body. -/
theorem handler_of_absent {σ : Type} (send : σ → JSValue → SendOutcome × σ)
    (admin : Admin σ) (res : Response) (b : JSValue) (h : b = .undefined ∨ b = .null) :
    handler send admin ⟨b⟩ res =
      { trace := [.setHeader "Access-Control-Allow-Origin" "*"]
        completion := .threw typeError
        res := res.setHeader "Access-Control-Allow-Origin" "*"
        admin := admin } := by
  simp [handler, destructureBody_of_absent b h]

/-- A header that has just been set reads back with the value it was set to. -/
theorem getHeader_setHeader (res : Response) (name value : String) :
    (res.setHeader name value).getHeader name = some value := by
  simp [Response.setHeader, Response.getHeader, List.lookup]

/-- Reading `notification.title` and `notification.body` off a built message. -/
theorem notificationField_buildMessage (token title body data : JSValue) :
    notificationField (buildMessage token title body data) "title"
        = .ok (title.or (.string "Kwaaijongens")) ∧
    notificationField (buildMessage token title body data) "body"
        = .ok (body.or (.string "Nieuw bericht!")) := by
  constructor <;> rfl

/-- Reading `token` and `data` off a built message. -/
theorem getProp_buildMessage (token title body data : JSValue) :
    (buildMessage token title body data).getProp "token" = .ok token ∧
    (buildMessage token title body data).getProp "data" = .ok (data.or (.object [])) := by
  constructor <;> rfl

/-- On a body from which some property can be read, the handler sends exactly one message,
the one built from the four property reads. -/
theorem sentMessages_of_present {σ : Type} (send : σ → JSValue → SendOutcome × σ)
    (admin : Admin σ) (res : Response) (b : JSValue)
    (hu : b ≠ .undefined) (hn : b ≠ .null) :
    ∃ token title body data,
      b.getProp "token" = .ok token ∧ b.getProp "title" = .ok title ∧
      b.getProp "body" = .ok body ∧ b.getProp "data" = .ok data ∧
      destructureBody b = .ok (token, title, body, data) ∧
      sentMessages (handler send admin ⟨b⟩ res).trace
        = [buildMessage token title body data] := by
  obtain ⟨token, title, body, data, h₁, h₂, h₃, h₄, hd⟩ := destructureBody_of_present b hu hn
  exact ⟨token, title, body, data, h₁, h₂, h₃, h₄, hd,
    sentMessages_of_destructured send admin res b token title body data hd⟩

/-- A run in which one message was sent is a run on a body that could be destructured, and
the message is the one built from the destructured values. -/
theorem destructured_of_sent {σ : Type} (send : σ → JSValue → SendOutcome × σ)
    (admin : Admin σ) (res : Response) (b msg : JSValue)
    (hm : sentMessages (handler send admin ⟨b⟩ res).trace = [msg]) :
    ∃ token title body data,
      destructureBody b = .ok (token, title, body, data) ∧
      msg = buildMessage token title body data := by
  by_cases hu : b = .undefined
  · rw [handler_of_absent send admin res b (Or.inl hu)] at hm
    simp [sentMessages] at hm
  · by_cases hn : b = .null
    · rw [handler_of_absent send admin res b (Or.inr hn)] at hm
      simp [sentMessages] at hm
    · obtain ⟨token, title, body, data, -, -, -, -, hd, hs⟩ :=
        sentMessages_of_present send admin res b hu hn
      refine ⟨token, title, body, data, hd, ?_⟩
      rw [hs] at hm
      exact (List.cons.inj hm).1.symm

/-- The shape shared by every run of the handler: the final response has the headers the
first call left, the list of apps is unchanged, the trace starts with the call that sets
the header, and no later effect sets a header or registers an app. -/
theorem handler_shape {σ : Type} (send : σ → JSValue → SendOutcome × σ)
    (admin : Admin σ) (req : Request) (res : Response) :
    (handler send admin req res).res.headers
      = (res.setHeader "Access-Control-Allow-Origin" "*").headers ∧
    (handler send admin req res).admin.apps = admin.apps ∧
    ∃ rest, (handler send admin req res).trace
        = .setHeader "Access-Control-Allow-Origin" "*" :: rest ∧
      headersSet rest = [] ∧ appsInitialized rest = [] := by
  obtain ⟨b⟩ := req
  cases hd : destructureBody b with
  | error f =>
    simp [handler, hd, headersSet, appsInitialized]
  | ok v =>
    obtain ⟨token, title, body, data⟩ := v
    rcases hs : send admin.messaging (buildMessage token title body data) with ⟨o, s⟩
    cases o with
    | resolves r =>
      rw [handler_of_resolves send admin res b token title body data r s hd hs]
      exact ⟨rfl, rfl, _, rfl, rfl, rfl⟩
    | rejects e =>
      cases he : e.getProp "message" with
      | ok text =>
        rw [handler_of_rejects send admin res b token title body data e text s hd hs he]
        exact ⟨rfl, rfl, _, rfl, rfl, rfl⟩
      | error f =>
        rw [handler_of_rejects_unreadable send admin res b token title body data e f s hd hs he]
        exact ⟨rfl, rfl, _, rfl, rfl, rfl⟩
    | pending =>
      rw [handler_of_pending send admin res b token title body data s hd hs]
      exact ⟨rfl, rfl, _, rfl, rfl, rfl⟩

/-- After a run on a body that could be destructured, the provider is in the state its
answer to the one message left it in. -/
theorem handler_messaging_of_destructured {σ : Type} (send : σ → JSValue → SendOutcome × σ)
    (admin : Admin σ) (res : Response) (b token title body data : JSValue)
    (h : destructureBody b = .ok (token, title, body, data)) :
    (handler send admin ⟨b⟩ res).admin.messaging
      = (send admin.messaging (buildMessage token title body data)).2 := by
  rcases hs : send admin.messaging (buildMessage token title body data) with ⟨o, s⟩
  cases o with
  | resolves r =>
    rw [handler_of_resolves send admin res b token title body data r s h hs]
  | rejects e =>
    cases he : e.getProp "message" with
    | ok text =>
      rw [handler_of_rejects send admin res b token title body data e text s h hs he]
    | error f =>
      rw [handler_of_rejects_unreadable send admin res b token title body data e f s h hs he]
  | pending =>
    rw [handler_of_pending send admin res b token title body data s h hs]

/-- The module-level guard leaves a list of at most one app, the service account, as it is
or fills it to exactly that. -/
theorem moduleInit_apps {σ : Type} (admin : Admin σ)
    (h : admin.apps = [] ∨ admin.apps = [serviceAccount]) :
    (moduleInit admin).1.apps = [serviceAccount] := by
  rcases h with h | h
  · simp [moduleInit, Admin.initializeApp, h]
  · simp [moduleInit, h]

/-- Along every sequence of process steps that starts from an empty or one-app list, the
list of apps stays empty or holds the service account alone. -/
theorem runProcess_apps {σ : Type} (send : σ → JSValue → SendOutcome × σ)
    (steps : List ProcessStep) (admin : Admin σ)
    (h : admin.apps = [] ∨ admin.apps = [serviceAccount]) :
    (runProcess send admin steps).apps = [] ∨
      (runProcess send admin steps).apps = [serviceAccount] := by
  induction steps generalizing admin with
  | nil => exact h
  | cons step rest ih =>
    have hstep : (runStep send admin step).apps = [] ∨
        (runStep send admin step).apps = [serviceAccount] := by
      cases step with
      | load => exact Or.inr (moduleInit_apps admin h)
      | invoke req res =>
        have := (handler_shape send admin req res).2.1
        simpa [runStep, this] using h
    exact ih (runStep send admin step) hstep

/-! ## The claims -/

/-- C1: for every request body whose `title` is absent or falsy the one outbound message
has `notification.title` equal to `Kwaaijongens`, whatever the `body` field is; for every
request body whose `body` is absent or falsy it has `notification.body` equal to
`Nieuw bericht!`, whatever the `title` is; and the request `{token: "abc"}` yields the
outbound message
`{token: "abc", notification: {title: "Kwaaijongens", body: "Nieuw bericht!"}, data: {}}`. -/
theorem C1_absent_title_and_body_get_defaults {σ : Type}
    (send : σ → JSValue → SendOutcome × σ) (admin : Admin σ) (res : Response) :
    (∀ reqBody title : JSValue,
        reqBody.getProp "title" = .ok title → title.truthy = false →
        ∃ m, sentMessages (handler send admin ⟨reqBody⟩ res).trace = [m] ∧
          notificationField m "title" = .ok (.string "Kwaaijongens")) ∧
    (∀ reqBody body : JSValue,
        reqBody.getProp "body" = .ok body → body.truthy = false →
        ∃ m, sentMessages (handler send admin ⟨reqBody⟩ res).trace = [m] ∧
          notificationField m "body" = .ok (.string "Nieuw bericht!")) ∧
    sentMessages (handler send admin ⟨.object [("token", .string "abc")]⟩ res).trace =
      [.object
        [("token", .string "abc"),
         ("notification",
            .object [("title", .string "Kwaaijongens"), ("body", .string "Nieuw bericht!")]),
         ("data", .object [])]] := by
  refine ⟨?_, ?_, ?_⟩
  · intro reqBody title ht hf
    obtain ⟨hu, hn⟩ := present_of_getProp reqBody "title" title ht
    obtain ⟨token, title₂, body, data, -, h₂, -, -, -, hm⟩ :=
      sentMessages_of_present send admin res reqBody hu hn
    have e : title₂ = title := by
      rw [h₂] at ht
      exact Except.ok.inj ht
    subst e
    refine ⟨_, hm, ?_⟩
    rw [(notificationField_buildMessage token title₂ body data).1]
    simp [JSValue.or, hf]
  · intro reqBody body hb hf
    obtain ⟨hu, hn⟩ := present_of_getProp reqBody "body" body hb
    obtain ⟨token, title, body₂, data, -, -, h₃, -, -, hm⟩ :=
      sentMessages_of_present send admin res reqBody hu hn
    have e : body₂ = body := by
      rw [h₃] at hb
      exact Except.ok.inj hb
    subst e
    refine ⟨_, hm, ?_⟩
    rw [(notificationField_buildMessage token title body₂ data).2]
    simp [JSValue.or, hf]
  · exact sentMessages_of_destructured send admin res _ (.string "abc") .undefined .undefined
      .undefined rfl

/-- Witness for C1: a body with an empty `title` and a proper `body`, a body with a proper
`title` and a `null` `body`, against the provider that answers `msg-1`. -/
theorem C1_absent_title_and_body_get_defaults_witness :
    (∃ m, sentMessages (handler echoProvider (loadedAdmin ())
          ⟨.object [("token", .string "abc"), ("title", .string ""), ("body", .string "There")]⟩
          Response.fresh).trace = [m] ∧
        notificationField m "title" = .ok (.string "Kwaaijongens")) ∧
    (∃ m, sentMessages (handler echoProvider (loadedAdmin ())
          ⟨.object [("token", .string "abc"), ("title", .string "Hi"), ("body", .null)]⟩
          Response.fresh).trace = [m] ∧
        notificationField m "body" = .ok (.string "Nieuw bericht!")) :=
  ⟨(C1_absent_title_and_body_get_defaults echoProvider (loadedAdmin ()) Response.fresh).1
      (.object [("token", .string "abc"), ("title", .string ""), ("body", .string "There")])
      (.string "") rfl rfl,
   (C1_absent_title_and_body_get_defaults echoProvider (loadedAdmin ()) Response.fresh).2.1
      (.object [("token", .string "abc"), ("title", .string "Hi"), ("body", .null)])
      .null rfl rfl⟩

/-- C2: for every request body in which `title` and `body` are both non-empty strings, the
one outbound message has `notification.title` equal to the request's title and
`notification.body` equal to the request's body: no default is substituted and neither
value is altered. -/
theorem C2_present_title_and_body_pass_through {σ : Type}
    (send : σ → JSValue → SendOutcome × σ) (admin : Admin σ) (res : Response)
    (reqBody : JSValue) (t b : String)
    (ht : reqBody.getProp "title" = .ok (.string t))
    (hb : reqBody.getProp "body" = .ok (.string b))
    (htne : t ≠ "") (hbne : b ≠ "") :
    ∃ m, sentMessages (handler send admin ⟨reqBody⟩ res).trace = [m] ∧
      notificationField m "title" = .ok (.string t) ∧
      notificationField m "body" = .ok (.string b) := by
  obtain ⟨hu, hn⟩ := present_of_getProp reqBody "title" _ ht
  obtain ⟨token, title, body, data, -, h₂, h₃, -, -, hm⟩ :=
    sentMessages_of_present send admin res reqBody hu hn
  have e₁ : title = .string t := by
    rw [h₂] at ht
    exact Except.ok.inj ht
  have e₂ : body = .string b := by
    rw [h₃] at hb
    exact Except.ok.inj hb
  subst e₁ e₂
  refine ⟨_, hm, ?_, ?_⟩
  · rw [(notificationField_buildMessage token _ _ data).1]
    simp [JSValue.or, JSValue.truthy, htne]
  · rw [(notificationField_buildMessage token _ _ data).2]
    simp [JSValue.or, JSValue.truthy, hbne]

/-- Witness for C2: the title is the default string itself and is passed through as the
request's own value. -/
theorem C2_present_title_and_body_pass_through_witness :
    ∃ m, sentMessages (handler echoProvider (loadedAdmin ())
          ⟨.object [("token", .string "abc"), ("title", .string "Kwaaijongens"),
                    ("body", .string "There")]⟩
          Response.fresh).trace = [m] ∧
      notificationField m "title" = .ok (.string "Kwaaijongens") ∧
      notificationField m "body" = .ok (.string "There") :=
  C2_present_title_and_body_pass_through echoProvider (loadedAdmin ()) Response.fresh
    (.object [("token", .string "abc"), ("title", .string "Kwaaijongens"),
              ("body", .string "There")])
    "Kwaaijongens" "There" rfl rfl (by decide) (by decide)

/-- C3: for every request body, the `data` field of the one outbound message is the empty
mapping when the request's `data` is absent, and is the request's `data` mapping, with the
same keys and values, when `data` is a mapping (the empty mapping included). -/
theorem C3_data_defaults_to_empty_or_passes_through {σ : Type}
    (send : σ → JSValue → SendOutcome × σ) (admin : Admin σ) (res : Response)
    (reqBody : JSValue) :
    (reqBody.getProp "data" = .ok .undefined →
      ∃ m, sentMessages (handler send admin ⟨reqBody⟩ res).trace = [m] ∧
        m.getProp "data" = .ok (.object [])) ∧
    (∀ props, reqBody.getProp "data" = .ok (.object props) →
      ∃ m, sentMessages (handler send admin ⟨reqBody⟩ res).trace = [m] ∧
        m.getProp "data" = .ok (.object props)) := by
  constructor
  · intro hd
    obtain ⟨hu, hn⟩ := present_of_getProp reqBody "data" _ hd
    obtain ⟨token, title, body, data, -, -, -, h₄, -, hm⟩ :=
      sentMessages_of_present send admin res reqBody hu hn
    have e : data = .undefined := by
      rw [h₄] at hd
      exact Except.ok.inj hd
    subst e
    exact ⟨_, hm, (getProp_buildMessage token title body _).2⟩
  · intro props hd
    obtain ⟨hu, hn⟩ := present_of_getProp reqBody "data" _ hd
    obtain ⟨token, title, body, data, -, -, -, h₄, -, hm⟩ :=
      sentMessages_of_present send admin res reqBody hu hn
    have e : data = .object props := by
      rw [h₄] at hd
      exact Except.ok.inj hd
    subst e
    exact ⟨_, hm, (getProp_buildMessage token title body _).2⟩

/-- Witness for C3: a body without `data`, a body with a one-entry mapping and a body with
the empty mapping. -/
theorem C3_data_defaults_to_empty_or_passes_through_witness :
    (∃ m, sentMessages (handler echoProvider (loadedAdmin ())
          ⟨.object [("token", .string "abc")]⟩ Response.fresh).trace = [m] ∧
        m.getProp "data" = .ok (.object [])) ∧
    (∃ m, sentMessages (handler echoProvider (loadedAdmin ())
          ⟨.object [("token", .string "abc"), ("data", .object [("x", .string "1")])]⟩
          Response.fresh).trace = [m] ∧
        m.getProp "data" = .ok (.object [("x", .string "1")])) ∧
    (∃ m, sentMessages (handler echoProvider (loadedAdmin ())
          ⟨.object [("token", .string "abc"), ("data", .object [])]⟩
          Response.fresh).trace = [m] ∧
        m.getProp "data" = .ok (.object [])) :=
  ⟨(C3_data_defaults_to_empty_or_passes_through echoProvider (loadedAdmin ()) Response.fresh
      (.object [("token", .string "abc")])).1 rfl,
   (C3_data_defaults_to_empty_or_passes_through echoProvider (loadedAdmin ()) Response.fresh
      (.object [("token", .string "abc"), ("data", .object [("x", .string "1")])])).2
      [("x", .string "1")] rfl,
   (C3_data_defaults_to_empty_or_passes_through echoProvider (loadedAdmin ()) Response.fresh
      (.object [("token", .string "abc"), ("data", .object [])])).2 [] rfl⟩

/-- C4: for every request and every provider that resolves the handler's send call with an
identifier `m`, the handler writes status 200 and then the JSON body
`{success: true, messageId: m}` with `m` unchanged, nothing else is written, the body has
no `error` field, and the handler returns normally. -/
theorem C4_resolved_send_gives_200 {σ : Type}
    (send : σ → JSValue → SendOutcome × σ) (admin : Admin σ) (req : Request) (res : Response)
    (msg m : JSValue)
    (hm : sentMessages (handler send admin req res).trace = [msg])
    (hs : (send admin.messaging msg).1 = .resolves m) :
    statusesWritten (handler send admin req res).trace = [200] ∧
    bodiesWritten (handler send admin req res).trace
      = [.object [("success", .bool true), ("messageId", m)]] ∧
    (handler send admin req res).res.statusCode = some 200 ∧
    (handler send admin req res).res.body
      = some (.object [("success", .bool true), ("messageId", m)]) ∧
    (JSValue.object [("success", .bool true), ("messageId", m)]).getProp "error"
      = .ok .undefined ∧
    (handler send admin req res).completion = .returned := by
  obtain ⟨b⟩ := req
  obtain ⟨token, title, body, data, hd, rfl⟩ := destructured_of_sent send admin res b msg hm
  have hs₂ : send admin.messaging (buildMessage token title body data)
      = (.resolves m, (send admin.messaging (buildMessage token title body data)).2) :=
    Prod.ext hs rfl
  rw [handler_of_resolves send admin res b token title body data m _ hd hs₂]
  refine ⟨rfl, rfl, rfl, rfl, rfl, rfl⟩

/-- Witness for C4: the request `{token: "abc", title: "Hi", body: "There", data: {x: "1"}}`
against the provider that answers `msg-1` gives status 200 and the body
`{success: true, messageId: "msg-1"}`. -/
theorem C4_resolved_send_gives_200_witness :
    statusesWritten (handler echoProvider (loadedAdmin ())
        ⟨.object [("token", .string "abc"), ("title", .string "Hi"), ("body", .string "There"),
                  ("data", .object [("x", .string "1")])]⟩ Response.fresh).trace = [200] ∧
    bodiesWritten (handler echoProvider (loadedAdmin ())
        ⟨.object [("token", .string "abc"), ("title", .string "Hi"), ("body", .string "There"),
                  ("data", .object [("x", .string "1")])]⟩ Response.fresh).trace
      = [.object [("success", .bool true), ("messageId", .string "msg-1")]] ∧
    (handler echoProvider (loadedAdmin ())
        ⟨.object [("token", .string "abc"), ("title", .string "Hi"), ("body", .string "There"),
                  ("data", .object [("x", .string "1")])]⟩ Response.fresh).res.statusCode
      = some 200 ∧
    (handler echoProvider (loadedAdmin ())
        ⟨.object [("token", .string "abc"), ("title", .string "Hi"), ("body", .string "There"),
                  ("data", .object [("x", .string "1")])]⟩ Response.fresh).res.body
      = some (.object [("success", .bool true), ("messageId", .string "msg-1")]) ∧
    (JSValue.object [("success", .bool true), ("messageId", .string "msg-1")]).getProp "error"
      = .ok .undefined ∧
    (handler echoProvider (loadedAdmin ())
        ⟨.object [("token", .string "abc"), ("title", .string "Hi"), ("body", .string "There"),
                  ("data", .object [("x", .string "1")])]⟩ Response.fresh).completion
      = .returned :=
  C4_resolved_send_gives_200 echoProvider (loadedAdmin ())
    ⟨.object [("token", .string "abc"), ("title", .string "Hi"), ("body", .string "There"),
              ("data", .object [("x", .string "1")])]⟩ Response.fresh
    (.object
      [("token", .string "abc"),
       ("notification", .object [("title", .string "Hi"), ("body", .string "There")]),
       ("data", .object [("x", .string "1")])])
    (.string "msg-1") rfl rfl

/-- C5: for every request and every failure with which the provider rejects the handler's
send call, `t` being the failure's message text, the handler writes status 500 and then
the JSON body `{error: t}`, nothing else is written, the body has no `success` and no
`messageId` field, and the handler returns normally: the failure is not rethrown. -/
theorem C5_rejected_send_gives_500 {σ : Type}
    (send : σ → JSValue → SendOutcome × σ) (admin : Admin σ) (req : Request) (res : Response)
    (msg error : JSValue) (t : String)
    (hm : sentMessages (handler send admin req res).trace = [msg])
    (hs : (send admin.messaging msg).1 = .rejects error)
    (he : error.getProp "message" = .ok (.string t)) :
    statusesWritten (handler send admin req res).trace = [500] ∧
    bodiesWritten (handler send admin req res).trace = [.object [("error", .string t)]] ∧
    (handler send admin req res).res.statusCode = some 500 ∧
    (handler send admin req res).res.body = some (.object [("error", .string t)]) ∧
    (JSValue.object [("error", .string t)]).getProp "success" = .ok .undefined ∧
    (JSValue.object [("error", .string t)]).getProp "messageId" = .ok .undefined ∧
    (handler send admin req res).completion = .returned := by
  obtain ⟨b⟩ := req
  obtain ⟨token, title, body, data, hd, rfl⟩ := destructured_of_sent send admin res b msg hm
  have hs₂ : send admin.messaging (buildMessage token title body data)
      = (.rejects error, (send admin.messaging (buildMessage token title body data)).2) :=
    Prod.ext hs rfl
  rw [handler_of_rejects send admin res b token title body data error _ _ hd hs₂ he]
  refine ⟨rfl, rfl, rfl, rfl, rfl, rfl, rfl⟩

/-- Witness for C5: a provider rejecting with the message `invalid registration token`
gives status 500 and the body `{error: "invalid registration token"}`. -/
theorem C5_rejected_send_gives_500_witness :
    statusesWritten (handler (rejectingProvider "invalid registration token") (loadedAdmin ())
        ⟨.object [("token", .string "abc")]⟩ Response.fresh).trace = [500] ∧
    bodiesWritten (handler (rejectingProvider "invalid registration token") (loadedAdmin ())
        ⟨.object [("token", .string "abc")]⟩ Response.fresh).trace
      = [.object [("error", .string "invalid registration token")]] ∧
    (handler (rejectingProvider "invalid registration token") (loadedAdmin ())
        ⟨.object [("token", .string "abc")]⟩ Response.fresh).res.statusCode = some 500 ∧
    (handler (rejectingProvider "invalid registration token") (loadedAdmin ())
        ⟨.object [("token", .string "abc")]⟩ Response.fresh).res.body
      = some (.object [("error", .string "invalid registration token")]) ∧
    (JSValue.object [("error", .string "invalid registration token")]).getProp "success"
      = .ok .undefined ∧
    (JSValue.object [("error", .string "invalid registration token")]).getProp "messageId"
      = .ok .undefined ∧
    (handler (rejectingProvider "invalid registration token") (loadedAdmin ())
        ⟨.object [("token", .string "abc")]⟩ Response.fresh).completion = .returned :=
  C5_rejected_send_gives_500 (rejectingProvider "invalid registration token") (loadedAdmin ())
    ⟨.object [("token", .string "abc")]⟩ Response.fresh
    (.object
      [("token", .string "abc"),
       ("notification",
          .object [("title", .string "Kwaaijongens"), ("body", .string "Nieuw bericht!")]),
       ("data", .object [])])
    (.object [("message", .string "invalid registration token")])
    "invalid registration token" rfl rfl rfl

/-- C6, as stated, fails on a request without a body: the handler then makes no call to
the provider at all. -/
theorem C6_absent_body_makes_no_provider_call :
    sentMessages (handler echoProvider (loadedAdmin ()) ⟨.undefined⟩ Response.fresh).trace = [] ∧
    (sentMessages
      (handler echoProvider (loadedAdmin ()) ⟨.undefined⟩ Response.fresh).trace).length ≠ 1 := by
  constructor
  · rfl
  · decide

/-- C6, amended: for every request that carries a body and whatever the provider's outcome,
the handler makes exactly one call to the provider's send; invoking the handler a second
time with the same request makes a second call with the same message, answered by the
provider in the state the first call left it in, so that the provider has then made two
transitions: nothing is cached and the handler carries nothing over. -/
theorem C6_one_provider_call_per_request_with_body {σ : Type}
    (send : σ → JSValue → SendOutcome × σ) (admin : Admin σ) (req : Request)
    (res₁ res₂ : Response) (hu : req.body ≠ .undefined) (hn : req.body ≠ .null) :
    ∃ m,
      sentMessages (handler send admin req res₁).trace = [m] ∧
      (sentMessages (handler send admin req res₁).trace).length = 1 ∧
      (handler send admin req res₁).admin.messaging = (send admin.messaging m).2 ∧
      sentMessages (handler send (handler send admin req res₁).admin req res₂).trace = [m] ∧
      (handler send (handler send admin req res₁).admin req res₂).admin.messaging
        = (send (send admin.messaging m).2 m).2 := by
  obtain ⟨b⟩ := req
  obtain ⟨token, title, body, data, -, -, -, -, hd, hm⟩ :=
    sentMessages_of_present send admin res₁ b hu hn
  have h₁ := handler_messaging_of_destructured send admin res₁ b token title body data hd
  have h₂ := handler_messaging_of_destructured send (handler send admin ⟨b⟩ res₁).admin res₂ b
    token title body data hd
  refine ⟨_, hm, ?_, h₁, ?_, ?_⟩
  · rw [hm]
    rfl
  · exact sentMessages_of_destructured send _ res₂ b token title body data hd
  · rw [h₂, h₁]

/-- Witness for C6: the request `{token: "abc"}` handled twice against the provider that
answers `msg-1` first and `msg-2` afterwards; the second response carries `msg-2`. -/
theorem C6_one_provider_call_per_request_with_body_witness :
    (∃ m,
      sentMessages (handler sequencedProvider (loadedAdmin false)
        ⟨.object [("token", .string "abc")]⟩ Response.fresh).trace = [m] ∧
      (sentMessages (handler sequencedProvider (loadedAdmin false)
        ⟨.object [("token", .string "abc")]⟩ Response.fresh).trace).length = 1 ∧
      (handler sequencedProvider (loadedAdmin false)
        ⟨.object [("token", .string "abc")]⟩ Response.fresh).admin.messaging
        = (sequencedProvider (loadedAdmin false).messaging m).2 ∧
      sentMessages (handler sequencedProvider
        (handler sequencedProvider (loadedAdmin false)
          ⟨.object [("token", .string "abc")]⟩ Response.fresh).admin
        ⟨.object [("token", .string "abc")]⟩ Response.fresh).trace = [m] ∧
      (handler sequencedProvider
        (handler sequencedProvider (loadedAdmin false)
          ⟨.object [("token", .string "abc")]⟩ Response.fresh).admin
        ⟨.object [("token", .string "abc")]⟩ Response.fresh).admin.messaging
        = (sequencedProvider (sequencedProvider (loadedAdmin false).messaging m).2 m).2) ∧
    bodiesWritten (handler sequencedProvider (loadedAdmin false)
        ⟨.object [("token", .string "abc")]⟩ Response.fresh).trace
      = [.object [("success", .bool true), ("messageId", .string "msg-1")]] ∧
    bodiesWritten (handler sequencedProvider
        (handler sequencedProvider (loadedAdmin false)
          ⟨.object [("token", .string "abc")]⟩ Response.fresh).admin
        ⟨.object [("token", .string "abc")]⟩ Response.fresh).trace
      = [.object [("success", .bool true), ("messageId", .string "msg-2")]] :=
  ⟨C6_one_provider_call_per_request_with_body sequencedProvider (loadedAdmin false)
      ⟨.object [("token", .string "abc")]⟩ Response.fresh Response.fresh
      (by intro h; cases h) (by intro h; cases h),
   rfl, rfl⟩

/-- C7: on every run of the handler, whichever response it produces, the final response
carries the header `Access-Control-Allow-Origin` with value `*`; the call that sets it is
the first effect of the run, before any status or body is written, and no later effect of
the run sets a header. -/
theorem C7_cors_header_set_first_and_kept {σ : Type}
    (send : σ → JSValue → SendOutcome × σ) (admin : Admin σ) (req : Request) (res : Response) :
    (handler send admin req res).res.getHeader "Access-Control-Allow-Origin" = some "*" ∧
    ∃ rest,
      (handler send admin req res).trace
        = .setHeader "Access-Control-Allow-Origin" "*" :: rest ∧
      headersSet rest = [] ∧
      statusesWritten (handler send admin req res).trace = statusesWritten rest ∧
      bodiesWritten (handler send admin req res).trace = bodiesWritten rest := by
  obtain ⟨hh, -, rest, ht, hs, -⟩ := handler_shape send admin req res
  refine ⟨?_, rest, ht, hs, ?_, ?_⟩
  · have := getHeader_setHeader res "Access-Control-Allow-Origin" "*"
    simpa [Response.getHeader, hh] using this
  · rw [ht]
    rfl
  · rw [ht]
    rfl

/-- C8: for every request that carries a body, whatever its `token` is, the handler
validates nothing and writes no response before the provider call: the first effect after
the header is the send of a message whose `token` is the request's `token` as supplied, no
other send follows, and a status other than 200 is written only when the provider rejected
that send. -/
theorem C8_token_forwarded_as_supplied {σ : Type}
    (send : σ → JSValue → SendOutcome × σ) (admin : Admin σ) (req : Request) (res : Response)
    (hu : req.body ≠ .undefined) (hn : req.body ≠ .null) :
    ∃ token m rest,
      req.body.getProp "token" = .ok token ∧
      (handler send admin req res).trace
        = .setHeader "Access-Control-Allow-Origin" "*" :: .send m :: rest ∧
      sentMessages rest = [] ∧
      m.getProp "token" = .ok token ∧
      (∀ c ∈ statusesWritten (handler send admin req res).trace, c ≠ 200 →
        ∃ e, (send admin.messaging m).1 = .rejects e) := by
  obtain ⟨b⟩ := req
  obtain ⟨token, title, body, data, h₁, -, -, -, hd, -⟩ :=
    sentMessages_of_present send admin res b hu hn
  refine ⟨token, buildMessage token title body data, ?_⟩
  rcases hs : send admin.messaging (buildMessage token title body data) with ⟨o, s⟩
  cases o with
  | resolves r =>
    rw [handler_of_resolves send admin res b token title body data r s hd hs]
    refine ⟨_, h₁, rfl, rfl, (getProp_buildMessage token title body data).1, ?_⟩
    intro c hc hne
    simp [statusesWritten] at hc
    exact absurd hc hne
  | rejects e =>
    cases he : e.getProp "message" with
    | ok text =>
      rw [handler_of_rejects send admin res b token title body data e text s hd hs he]
      exact ⟨_, h₁, rfl, rfl, (getProp_buildMessage token title body data).1,
        fun _ _ _ => ⟨e, rfl⟩⟩
    | error f =>
      rw [handler_of_rejects_unreadable send admin res b token title body data e f s hd hs he]
      exact ⟨_, h₁, rfl, rfl, (getProp_buildMessage token title body data).1,
        fun _ _ _ => ⟨e, rfl⟩⟩
  | pending =>
    rw [handler_of_pending send admin res b token title body data s hd hs]
    refine ⟨_, h₁, rfl, rfl, (getProp_buildMessage token title body data).1, ?_⟩
    intro c hc
    simp [statusesWritten] at hc

/-- Witness for C8: a body whose `token` is the empty string, against a provider that
rejects it. -/
theorem C8_token_forwarded_as_supplied_witness :
    ∃ token m rest,
      (JSValue.object [("token", .string "")]).getProp "token" = .ok token ∧
      (handler (rejectingProvider "invalid registration token") (loadedAdmin ())
          ⟨.object [("token", .string "")]⟩ Response.fresh).trace
        = .setHeader "Access-Control-Allow-Origin" "*" :: .send m :: rest ∧
      sentMessages rest = [] ∧
      m.getProp "token" = .ok token ∧
      (∀ c ∈ statusesWritten (handler (rejectingProvider "invalid registration token")
          (loadedAdmin ()) ⟨.object [("token", .string "")]⟩ Response.fresh).trace, c ≠ 200 →
        ∃ e, (rejectingProvider "invalid registration token"
          (loadedAdmin ()).messaging m).1 = .rejects e) :=
  C8_token_forwarded_as_supplied (rejectingProvider "invalid registration token")
    (loadedAdmin ()) ⟨.object [("token", .string "")]⟩ Response.fresh
    (by intro h; cases h) (by intro h; cases h)

/-- C9: the module-level initialization registers a client exactly when the list of
registered apps is empty and changes nothing when an app is registered; running it twice
gives the state of running it once, the second run performing no registration; along every
sequence of module loads and handler invocations from the empty list at most one client
exists; and no invocation of the handler registers a client or changes the list. -/
theorem C9_initialization_guarded_and_idempotent {σ : Type}
    (send : σ → JSValue → SendOutcome × σ) (s : σ) :
    moduleInit { apps := [], messaging := s } =
      ({ apps := [serviceAccount], messaging := s },
       [.initializeApp "kwaaijongens-app-88f1d" "YOUR_PRIVATE_KEY_HERE"
          "firebase-adminsdk-fbsvc@kwaaijongens-app-88f1d.iam.gserviceaccount.com"]) ∧
    (∀ (app : FirebaseApp) (apps : List FirebaseApp),
      moduleInit { apps := app :: apps, messaging := s }
        = ({ apps := app :: apps, messaging := s }, [])) ∧
    (∀ admin : Admin σ, moduleInit (moduleInit admin).1 = ((moduleInit admin).1, [])) ∧
    (∀ steps : List ProcessStep,
      (runProcess send { apps := [], messaging := s } steps).apps.length ≤ 1) ∧
    (∀ (admin : Admin σ) (req : Request) (res : Response),
      (handler send admin req res).admin.apps = admin.apps ∧
      appsInitialized (handler send admin req res).trace = []) := by
  refine ⟨rfl, fun app apps => rfl, ?_, ?_, ?_⟩
  · intro admin
    obtain ⟨apps, m⟩ := admin
    cases apps with
    | nil => rfl
    | cons a rest => rfl
  · intro steps
    rcases runProcess_apps send steps { apps := [], messaging := s } (Or.inl rfl) with h | h
    · simp [h]
    · simp [h]
  · intro admin req res
    obtain ⟨-, ha, rest, ht, -, hi⟩ := handler_shape send admin req res
    refine ⟨ha, ?_⟩
    rw [ht]
    exact hi

/-- C10: for every request whose body is `undefined` or `null`, the handler ends with the
TypeError raised by the destructuring, outside the `try`: the only effect of the run is the
call that sets the CORS header, so no message is sent, no status and no body are written,
the response keeps the status and body it had and the provider is left untouched. -/
theorem C10_absent_body_faults_before_the_try {σ : Type}
    (send : σ → JSValue → SendOutcome × σ) (admin : Admin σ) (req : Request) (res : Response)
    (h : req.body = .undefined ∨ req.body = .null) :
    (handler send admin req res).completion = .threw typeError ∧
    (handler send admin req res).trace = [.setHeader "Access-Control-Allow-Origin" "*"] ∧
    sentMessages (handler send admin req res).trace = [] ∧
    statusesWritten (handler send admin req res).trace = [] ∧
    bodiesWritten (handler send admin req res).trace = [] ∧
    (handler send admin req res).res.statusCode = res.statusCode ∧
    (handler send admin req res).res.body = res.body ∧
    (handler send admin req res).res.getHeader "Access-Control-Allow-Origin" = some "*" ∧
    (handler send admin req res).admin = admin := by
  obtain ⟨b⟩ := req
  rw [handler_of_absent send admin res b h]
  exact ⟨rfl, rfl, rfl, rfl, rfl, rfl, rfl,
    getHeader_setHeader res "Access-Control-Allow-Origin" "*", rfl⟩

/-- Witness for C10: a request whose body is `null`, against the provider that would
answer `msg-1`. -/
theorem C10_absent_body_faults_before_the_try_witness :
    (handler echoProvider (loadedAdmin ()) ⟨.null⟩ Response.fresh).completion
      = .threw typeError ∧
    (handler echoProvider (loadedAdmin ()) ⟨.null⟩ Response.fresh).trace
      = [.setHeader "Access-Control-Allow-Origin" "*"] ∧
    sentMessages (handler echoProvider (loadedAdmin ()) ⟨.null⟩ Response.fresh).trace = [] ∧
    statusesWritten (handler echoProvider (loadedAdmin ()) ⟨.null⟩ Response.fresh).trace = [] ∧
    bodiesWritten (handler echoProvider (loadedAdmin ()) ⟨.null⟩ Response.fresh).trace = [] ∧
    (handler echoProvider (loadedAdmin ()) ⟨.null⟩ Response.fresh).res.statusCode
      = Response.fresh.statusCode ∧
    (handler echoProvider (loadedAdmin ()) ⟨.null⟩ Response.fresh).res.body
      = Response.fresh.body ∧
    (handler echoProvider (loadedAdmin ()) ⟨.null⟩ Response.fresh).res.getHeader
      "Access-Control-Allow-Origin" = some "*" ∧
    (handler echoProvider (loadedAdmin ()) ⟨.null⟩ Response.fresh).admin = loadedAdmin () :=
  C10_absent_body_faults_before_the_try echoProvider (loadedAdmin ()) ⟨.null⟩ Response.fresh
    (Or.inr rfl)

end SendFcm
